import Mathlib

/-!
Verification of the concurrency-safe, file-backed structured config/state
store of sfdx-core (the ConfigFile Document Store, its Reconciling Writer,
its Path Resolver and filesystem facades) and of the keychain retry logic
in src/crypto/keyChainImpl.ts.

The ConfigFile implementation file itself is not part of the provided
sources (only its unit tests are), so the Document Store, Reconciling
Writer and Path Resolver definitions below are modelled from the
specification text, as their doc comments state.  The keychain retry
model is translated directly from src/crypto/keyChainImpl.ts.
-/

/-- Modelled from the spec (section 3, DATA MODEL): a JSON-compatible value is a
string, number, boolean, null, nested mapping (ordered list of key/value
fields) or array. -/
inductive JsonValue where
  | str (s : String)
  | num (n : Int)
  | bool (b : Bool)
  | null
  | obj (fields : List (String × JsonValue))
  | arr (items : List JsonValue)
  deriving Repr

/-- Modelled from the spec: the document is an ordered mapping from string
keys to JSON-compatible values. -/
abbrev ConfigContents := List (String × JsonValue)

mutual
/-- Deep structural equality of JSON values (the "deep comparison" the
Reconciling Writer uses when computing its delta). -/
def JsonValue.beq : JsonValue → JsonValue → Bool
  | .str a, .str b => a == b
  | .num a, .num b => a == b
  | .bool a, .bool b => a == b
  | .null, .null => true
  | .obj a, .obj b => beqFields a b
  | .arr a, .arr b => beqItems a b
  | _, _ => false
/-- Deep equality of ordered field lists, pointwise and in order. -/
def beqFields : List (String × JsonValue) → List (String × JsonValue) → Bool
  | [], [] => true
  | (k, v) :: as, (k2, v2) :: bs => k == k2 && JsonValue.beq v v2 && beqFields as bs
  | _, _ => false
/-- Deep equality of arrays, pointwise and in order. -/
def beqItems : List JsonValue → List JsonValue → Bool
  | [], [] => true
  | a :: as, b :: bs => JsonValue.beq a b && beqItems as bs
  | _, _ => false
end

/-- Look a key up in an ordered association list (first match wins). -/
def lookupKey {α : Type} : List (String × α) → String → Option α
  | [], _ => none
  | (k2, v) :: rest, k => if k2 = k then some v else lookupKey rest k

/-- Set a key in an ordered association list: overwrite in place if the key
is present, append at the end otherwise (insertion order is preserved). -/
def setKey {α : Type} : List (String × α) → String → α → List (String × α)
  | [], k, v => [(k, v)]
  | (k2, v2) :: rest, k, v =>
    if k2 = k then (k, v) :: rest else (k2, v2) :: setKey rest k v

/-- Remove every binding of a key from an ordered association list. -/
def removeKey {α : Type} : List (String × α) → String → List (String × α)
  | [], _ => []
  | (k2, v2) :: rest, k =>
    if k2 = k then removeKey rest k else (k2, v2) :: removeKey rest k

/-- Split a list of characters at every separator occurrence. -/
def splitAux (sep : Char) : List Char → List Char → List String
  | [], acc => [String.mk acc.reverse]
  | c :: rest, acc =>
    if c = sep then String.mk acc.reverse :: splitAux sep rest []
    else splitAux sep rest (c :: acc)

/-- Modelled from the spec (section 3): dot-separated key paths such as
"foo.color" address nested object properties; a key without a dot is the
one-segment path. -/
def splitKey (k : String) : List String := splitAux '.' k.toList []

/-- Modelled from the spec (section 3): write into the contents at a
(possibly nested) key path; intermediate mappings are created on demand,
and a non-object value at an intermediate key is replaced by a fresh
mapping. -/
def setPath : ConfigContents → List String → JsonValue → ConfigContents
  | c, [], _ => c
  | c, [k], v => setKey c k v
  | c, k :: k2 :: rest, v =>
    let sub : ConfigContents :=
      match lookupKey c k with
      | some (JsonValue.obj fields) => fields
      | _ => []
    setKey c k (JsonValue.obj (setPath sub (k2 :: rest) v))

/-- Modelled from the spec (section 4.2): traverse a (possibly nested) key
path, returning none when the path is absent at any level. -/
def getPath : ConfigContents → List String → Option JsonValue
  | _, [] => none
  | c, [k] => lookupKey c k
  | c, k :: k2 :: rest =>
    match lookupKey c k with
    | some (JsonValue.obj fields) => getPath fields (k2 :: rest)
    | _ => none

/-- Modelled from the spec (section 4.2): remove the deepest addressed
property of a (possibly nested) key path; a no-op if the path is absent. -/
def unsetPath : ConfigContents → List String → ConfigContents
  | c, [] => c
  | c, [k] => removeKey c k
  | c, k :: k2 :: rest =>
    match lookupKey c k with
    | some (JsonValue.obj fields) => setKey c k (JsonValue.obj (unsetPath fields (k2 :: rest)))
    | _ => c

/-- Modelled from the spec (section 3, ConfigDocument): the in-memory state
of one Document Store instance — its resolved path, current contents, the
base snapshot captured at the most recent successful read or write, and the
hasRead flag (named hasRead as in the ConfigFile tests). -/
structure ConfigFile where
  path : String
  contents : ConfigContents
  baseSnapshot : ConfigContents
  hasRead : Bool
  deriving Repr

/-- A freshly constructed instance: empty in-memory state, hasRead false. -/
def newConfigFile (path : String) : ConfigFile :=
  { path := path, contents := [], baseSnapshot := [], hasRead := false }

/-- Modelled from the spec: get returns the addressed (dot-path capable)
value or none if absent at any level; it never fails for a missing key. -/
def ConfigFile.get (cf : ConfigFile) (key : String) : Option JsonValue :=
  getPath cf.contents (splitKey key)

/-- Modelled from the spec: unset removes the key (for dot-paths, the
deepest addressed property) from contents if present; a no-op if absent. -/
def ConfigFile.unset (cf : ConfigFile) (key : String) : ConfigFile :=
  { cf with contents := unsetPath cf.contents (splitKey key) }

/-- Modelled from the spec: set with an undefined value (none) is
equivalent to unset; otherwise it writes into contents at the (possibly
nested, auto-created) key path.  Pure in-memory mutation: it touches
neither baseSnapshot nor disk. -/
def ConfigFile.set (cf : ConfigFile) (key : String) (value : Option JsonValue) : ConfigFile :=
  match value with
  | none => cf.unset key
  | some v => { cf with contents := setPath cf.contents (splitKey key) v }

/-- Modelled from the spec: bulk read of the whole document. -/
def ConfigFile.getContents (cf : ConfigFile) : ConfigContents := cf.contents

/-- Modelled from the spec: bulk replace of the whole document (contents
only; baseSnapshot is untouched). -/
def ConfigFile.setContents (cf : ConfigFile) (c : ConfigContents) : ConfigFile :=
  { cf with contents := c }

/-- Modelled from the spec (sections 5-7): the state of one path on disk —
either a parsed document, or a path whose access / read fails with an
OS-level error code (permission denied, corrupt data, ...). -/
inductive FileState where
  | doc (contents : ConfigContents)
  | ioErr (code : Nat)
  deriving Repr

/-- Modelled from the spec: the filesystem, a mapping from absolute paths
to file states; a path with no entry does not exist. -/
abbrev Fsys := List (String × FileState)

/-- Modelled from the spec (section 7, ERROR HANDLING DESIGN): the
structured error kinds the store surfaces. -/
inductive SfError where
  | fileNotFound
  | targetFileNotFound
  | missingFilename
  | ioError (code : Nat)
  deriving Repr

/-- Modelled from the spec (section 4.2, read): if already read and force
is false, return the cached contents without touching disk.  Otherwise read
the file: on success store the parsed document into both contents and
baseSnapshot and set hasRead; on file-not-found either degrade to the empty
document (throwOnNotFound false) or fail with FileNotFound; any other
failure propagates as-is.  The filesystem is returned unchanged: read never
creates or modifies the file. -/
def ConfigFile.read (cf : ConfigFile) (fsys : Fsys) (throwOnNotFound force : Bool) :
    Except SfError (ConfigFile × Fsys) :=
  if cf.hasRead && !force then .ok (cf, fsys)
  else
    match lookupKey fsys cf.path with
    | some (FileState.doc d) =>
      .ok ({ cf with contents := d, baseSnapshot := d, hasRead := true }, fsys)
    | some (FileState.ioErr code) => .error (SfError.ioError code)
    | none =>
      if throwOnNotFound then .error SfError.fileNotFound
      else .ok ({ cf with contents := [], baseSnapshot := [], hasRead := true }, fsys)

/-- Modelled from the spec (section 4.2): the synchronous read variant,
byte-for-byte the same semantics as the asynchronous one. -/
def ConfigFile.readSync (cf : ConfigFile) (fsys : Fsys) (throwOnNotFound force : Bool) :
    Except SfError (ConfigFile × Fsys) :=
  if cf.hasRead && !force then .ok (cf, fsys)
  else
    match lookupKey fsys cf.path with
    | some (FileState.doc d) =>
      .ok ({ cf with contents := d, baseSnapshot := d, hasRead := true }, fsys)
    | some (FileState.ioErr code) => .error (SfError.ioError code)
    | none =>
      if throwOnNotFound then .error SfError.fileNotFound
      else .ok ({ cf with contents := [], baseSnapshot := [], hasRead := true }, fsys)

/-- Modelled from the spec (section 4.4, step 4): the write-time structural
difference.  A top-level key of contents whose value deep-differs from the
base snapshot (or is absent there) is an add/update; a key present in the
base snapshot but absent from contents is a removal. -/
structure Delta where
  updates : List (String × JsonValue)
  removals : List String

/-- True when the value stored under the key in the base snapshot deep-
differs from the given value (absence counts as a difference). -/
def valueChanged (base : ConfigContents) (k : String) (v : JsonValue) : Bool :=
  match lookupKey base k with
  | none => true
  | some w => !(JsonValue.beq w v)

/-- Modelled from the spec (section 4.4, step 4): compute the delta between
baseSnapshot and contents. -/
def computeDelta (base contents : ConfigContents) : Delta :=
  { updates := contents.filter (fun p => valueChanged base p.1 p.2)
  , removals := (base.filter (fun p => (lookupKey contents p.1).isNone)).map Prod.fst }

/-- Overwrite each of the new fields onto the base fields, one by one. -/
def setAllKeys (base news : ConfigContents) : ConfigContents :=
  news.foldl (fun acc p => setKey acc p.1 p.2) base

/-- Modelled from the spec (section 4.4, step 5): apply one update by
overwriting, merging one level deep — when both the on-disk value and the
updated value at the key are nested objects, the updated object is
shallow-merged onto the on-disk one rather than replacing it wholesale. -/
def applyUpdate (disk : ConfigContents) (k : String) (v : JsonValue) : ConfigContents :=
  match lookupKey disk k with
  | some (JsonValue.obj dfields) =>
    match v with
    | JsonValue.obj nfields => setKey disk k (JsonValue.obj (setAllKeys dfields nfields))
    | _ => setKey disk k v
  | _ => setKey disk k v

/-- Modelled from the spec (section 4.4, step 5): apply the delta onto the
just-read on-disk state — every update by (one-level-merging) overwrite,
then every removal by deleting the key. -/
def applyDelta (disk : ConfigContents) (d : Delta) : ConfigContents :=
  d.removals.foldl removeKey (d.updates.foldl (fun acc p => applyUpdate acc p.1 p.2) disk)

/-- Modelled from the spec (section 4.4, the Reconciling Writer): write
optionally bulk-replaces contents first, re-reads the current on-disk state
(missing file treated as the empty document, unreadable file surfaced as an
error), merges the delta between baseSnapshot and contents onto it,
persists the merged result, and updates both contents and baseSnapshot to
the merged result.  The lock that brackets steps 3-7 makes the whole
operation atomic, which is how it is modelled here. -/
def ConfigFile.write (cf0 : ConfigFile) (fsys : Fsys) (newContents : Option ConfigContents) :
    Except SfError (ConfigFile × Fsys) :=
  let cf := match newContents with
    | some nc => cf0.setContents nc
    | none => cf0
  let finish : ConfigContents → Except SfError (ConfigFile × Fsys) := fun onDiskNow =>
    let merged := applyDelta onDiskNow (computeDelta cf.baseSnapshot cf.contents)
    .ok ({ cf with contents := merged, baseSnapshot := merged, hasRead := true },
         setKey fsys cf.path (FileState.doc merged))
  match lookupKey fsys cf.path with
  | some (FileState.ioErr code) => .error (SfError.ioError code)
  | some (FileState.doc d) => finish d
  | none => finish []

/-- The outcome of the raw OS accessibility check on a path: ok when the
path holds a readable document, otherwise the OS error code (2 — ENOENT —
for a path with no file). -/
def rawAccess (fsys : Fsys) (p : String) : Except Nat Unit :=
  match lookupKey fsys p with
  | some (FileState.doc _) => .ok ()
  | some (FileState.ioErr code) => .error code
  | none => .error 2

/-- Modelled from the spec and the ConfigFile tests: access() resolves to
true when the accessibility check on the instance path succeeds and to
false when it fails for any reason — the failure is swallowed, never
raised. -/
def ConfigFile.access (cf : ConfigFile) (fsys : Fsys) : Bool :=
  match rawAccess fsys cf.path with
  | .ok _ => true
  | .error _ => false

/-- Modelled from the spec: the synchronous variant of access, identical
semantics. -/
def ConfigFile.accessSync (cf : ConfigFile) (fsys : Fsys) : Bool :=
  match rawAccess fsys cf.path with
  | .ok _ => true
  | .error _ => false

/-- Modelled from the spec and the ConfigFile tests: exists() returns
exactly what access() returns. -/
def ConfigFile.existsFile (cf : ConfigFile) (fsys : Fsys) : Bool := cf.access fsys

/-- Modelled from the spec: the synchronous variant of exists, identical
semantics. -/
def ConfigFile.existsFileSync (cf : ConfigFile) (fsys : Fsys) : Bool := cf.accessSync fsys

/-- Modelled from the spec (Unlink-without-exist fails) and the ConfigFile
tests: unlink fails with TargetFileNotFound when the instance path does not
exist, and otherwise deletes the file at the instance path. -/
def ConfigFile.unlink (cf : ConfigFile) (fsys : Fsys) : Except SfError Fsys :=
  if cf.existsFile fsys then .ok (removeKey fsys cf.path)
  else .error SfError.targetFileNotFound

/-- Modelled from the spec: the synchronous variant of unlink, identical
semantics. -/
def ConfigFile.unlinkSync (cf : ConfigFile) (fsys : Fsys) : Except SfError Fsys :=
  if cf.existsFileSync fsys then .ok (removeKey fsys cf.path)
  else .error SfError.targetFileNotFound

/-- Modelled from the spec (section 4.1, Path Resolver): the inputs of the
path computation. -/
structure PathOptions where
  filename : String
  isGlobal : Bool
  isState : Bool
  customPath : Option String
  rootFolder : String
  homeDir : String

/-- Join path segments with the path separator. -/
def joinPath (parts : List String) : String := String.intercalate "/" parts

/-- Modelled from the spec: the hidden state folder name of the ConfigFile
tests (".sf"). -/
def stateFolder : String := ".sf"

/-- Modelled from the spec (section 4.1): the Path Resolver rules, in
priority order.  1. isGlobal puts the path under the global home-state
directory, regardless of isState (and of customPath).  2. Otherwise a
supplied customPath gives rootFolder/customPath/filename with no
state-folder segment.  3. Otherwise isState gives
rootFolder/stateFolder/filename.  4. Otherwise rootFolder/filename.
The function is pure (no I/O) and fails only on an empty filename. -/
def resolvePath (o : PathOptions) : Except SfError String :=
  if o.filename = "" then .error SfError.missingFilename
  else if o.isGlobal then .ok (joinPath [o.homeDir, stateFolder, o.filename])
  else
    match o.customPath with
    | some cp => .ok (joinPath [o.rootFolder, cp, o.filename])
    | none =>
      if o.isState then .ok (joinPath [o.rootFolder, stateFolder, o.filename])
      else .ok (joinPath [o.rootFolder, o.filename])

/-- From src/crypto/keyChainImpl.ts line 36. -/
def GET_PASSWORD_RETRY_COUNT : Nat := 3

/-- From src/crypto/keyChainImpl.ts: the outcome of one invocation of the
OS credential program, as seen by the close handler of
KeychainAccess.getPassword — either onGetCommandClose completed (invoking
the callback with the password or a non-thrown error), or it threw an
error marked retryable (e.retry), or it threw a fatal error. -/
inductive CloseOutcome where
  | done
  | thrownRetryable
  | thrownFatal (code : Nat)

/-- From src/crypto/keyChainImpl.ts: how one call chain of getPassword
ends — the close handler completed, or the retry budget was exhausted and
passwordRetryError was thrown, or a fatal error was rethrown. -/
inductive GetResult where
  | completed
  | passwordRetryError
  | fatal (code : Nat)
  deriving Repr

/-- From src/crypto/keyChainImpl.ts lines 182-196 (the close handler of
KeychainAccess.getPassword): the environment maps each retryCount value to
the outcome of the corresponding credential-program invocation.  A done
outcome completes; a fatal error is rethrown immediately; a retryable error
recurses with retryCount + 1 unless retryCount has already reached
GET_PASSWORD_RETRY_COUNT, in which case passwordRetryError is thrown. -/
def getPassword (env : Nat → CloseOutcome) (retryCount : Nat) : GetResult :=
  match env retryCount with
  | .done => .completed
  | .thrownFatal code => .fatal code
  | .thrownRetryable =>
    if h : retryCount ≥ GET_PASSWORD_RETRY_COUNT then .passwordRetryError
    else getPassword env (retryCount + 1)
termination_by GET_PASSWORD_RETRY_COUNT + 1 - retryCount
decreasing_by simp [GET_PASSWORD_RETRY_COUNT] at *; omega

/-- The concrete path used by the concurrency scenarios below. -/
def testPath : String := "testFileName"

/-- A filesystem holding one empty document at the given path — the "same
empty file" both instances of the disjoint-merge scenario open. -/
def emptyDocFs (p : String) : Fsys := [(p, FileState.doc [])]

/-- The disjoint concurrent merge scenario of the spec (section 8) and of
the ConfigFile race-condition tests: instances A and B are both opened
(read) from the same empty file, A sets top-level key "foo" to va, B sets
top-level key "bar" to vb, both write — in either order — and a third
fresh instance then reads the file. -/
def c1Run (va vb : JsonValue) (aFirst : Bool) : Except SfError ConfigContents := do
  let (a, _) ← (newConfigFile testPath).read (emptyDocFs testPath) false false
  let (b, _) ← (newConfigFile testPath).read (emptyDocFs testPath) false false
  let a := a.set "foo" (some va)
  let b := b.set "bar" (some vb)
  let fs2 ←
    if aFirst then do
      let (_, fs1) ← a.write (emptyDocFs testPath) none
      let (_, fs2) ← b.write fs1 none
      pure fs2
    else do
      let (_, fs1) ← b.write (emptyDocFs testPath) none
      let (_, fs2) ← a.write fs1 none
      pure fs2
  let (c, _) ← (newConfigFile testPath).read fs2 false false
  pure c.getContents

/-- The base document of the nested disjoint merge scenario. -/
def c2BaseData : ConfigContents :=
  [("foo", JsonValue.obj
      [("name", JsonValue.str "bar"), ("color", JsonValue.str "red"), ("rating", JsonValue.num 5)]),
   ("baz", JsonValue.obj
      [("name", JsonValue.str "qux"), ("color", JsonValue.str "blue"), ("rating", JsonValue.num 10)])]

/-- The nested disjoint merge scenario of the spec (section 8) and of the
race-condition test "should merge changes across writes": starting from the
base document on disk, instance A sets the dot-path key "foo.color" to
"orange" and writes, and instance B — opened before A's write — sets
"baz.rating" to 0 and writes after A; a fresh instance then reads the
final on-disk document. -/
def c2Run : Except SfError ConfigContents := do
  let fs0 : Fsys := [(testPath, FileState.doc c2BaseData)]
  let (a, _) ← (newConfigFile testPath).read fs0 false false
  let (b, _) ← (newConfigFile testPath).read fs0 false false
  let a := a.set "foo.color" (some (JsonValue.str "orange"))
  let (_, fs1) ← a.write fs0 none
  let b := b.set "baz.rating" (some (JsonValue.num 0))
  let (_, fs2) ← b.write fs1 none
  let (c, _) ← (newConfigFile testPath).read fs2 false false
  pure c.getContents

/-- The ten distinct keys of the removal-propagation scenario, as produced
by the race-condition test "should remove all keys/values". -/
def c3Keys : List String :=
  ["000", "001", "002", "003", "004", "005", "006", "007", "008", "009"]

/-- Phase one of the removal-propagation scenario: for each key in turn, an
instance opened from the initial empty file sets its own key and performs a
reconciling write against the current filesystem. -/
def c3Phase1 : List String → Fsys → Except SfError Fsys
  | [], fs => .ok fs
  | k :: rest, fs => do
    let (tc, _) ← (newConfigFile testPath).read (emptyDocFs testPath) false false
    let tc := tc.set k (some (JsonValue.str "bar"))
    let (_, fs2) ← tc.write fs none
    c3Phase1 rest fs2

/-- Phase two of the removal-propagation scenario: for each key in turn, an
instance re-reads the current on-disk state with force, unsets its own key
and performs a reconciling write. -/
def c3Phase2 : List String → Fsys → Except SfError Fsys
  | [], fs => .ok fs
  | k :: rest, fs => do
    let (tc, _) ← (newConfigFile testPath).read fs true true
    let tc := tc.unset k
    let (_, fs2) ← tc.write fs none
    c3Phase2 rest fs2

/-- The removal-propagation scenario of the spec (section 8): ten instances
each set a distinct key and write, then each re-reads with force, unsets
its own key and writes; a fresh instance then reads the final document. -/
def c3Run : Except SfError ConfigContents := do
  let fs1 ← c3Phase1 c3Keys (emptyDocFs testPath)
  let fs2 ← c3Phase2 c3Keys fs1
  let (c, _) ← (newConfigFile testPath).read fs2 false false
  pure c.getContents

/-- An in-memory mutation: a set (dot-path capable, with none standing for
the undefined value) or an unset. -/
inductive MutOp where
  | setOp (key : String) (value : Option JsonValue)
  | unsetOp (key : String)

/-- Apply one in-memory mutation to an instance. -/
def applyMutOp (cf : ConfigFile) : MutOp → ConfigFile
  | .setOp k v => cf.set k v
  | .unsetOp k => cf.unset k

/-- A key looked up successfully is a member of the association list. -/
theorem lookupKey_mem {α : Type} {l : List (String × α)} {k : String} {v : α}
    (h : lookupKey l k = some v) : (k, v) ∈ l := by
  induction l with
  | nil => simp [lookupKey] at h
  | cons p rest ih =>
    obtain ⟨k2, v2⟩ := p
    simp only [lookupKey] at h
    split at h
    · rename_i heq
      obtain rfl := heq
      obtain rfl : v2 = v := by injection h
      exact List.mem_cons_self _ _
    · exact List.mem_cons_of_mem _ (ih h)

/-- Removing a key really removes it. -/
theorem lookupKey_removeKey_self {α : Type} (l : List (String × α)) (k : String) :
    lookupKey (removeKey l k) k = none := by
  induction l with
  | nil => rfl
  | cons p rest ih =>
    obtain ⟨k2, v2⟩ := p
    simp only [removeKey]
    split
    · exact ih
    · rename_i hne
      simp only [lookupKey]
      rw [if_neg hne]
      exact ih

/-- Removing some key never makes another key appear. -/
theorem lookupKey_removeKey_none {α : Type} {l : List (String × α)} {k : String} (r : String)
    (h : lookupKey l k = none) : lookupKey (removeKey l r) k = none := by
  induction l with
  | nil => rfl
  | cons p rest ih =>
    obtain ⟨k2, v2⟩ := p
    simp only [lookupKey] at h
    split at h
    · simp at h
    · rename_i hne
      simp only [removeKey]
      split
      · exact ih h
      · simp only [lookupKey]
        rw [if_neg hne]
        exact ih h

/-- A fold of key removals preserves the absence of a key. -/
theorem foldl_removeKey_none {α : Type} (rs : List String) {d : List (String × α)} {k : String}
    (h : lookupKey d k = none) : lookupKey (rs.foldl removeKey d) k = none := by
  induction rs generalizing d with
  | nil => exact h
  | cons r rest ih => exact ih (lookupKey_removeKey_none r h)

/-- After folding a list of key removals, every removed key is absent. -/
theorem foldl_removeKey_mem {α : Type} {rs : List String} {k : String}
    (h : k ∈ rs) (d : List (String × α)) : lookupKey (rs.foldl removeKey d) k = none := by
  induction rs generalizing d with
  | nil => cases h
  | cons r rest ih =>
    simp only [List.foldl_cons]
    rcases List.mem_cons.mp h with rfl | hmem
    · exact foldl_removeKey_none rest (lookupKey_removeKey_self d k)
    · exact ih hmem (removeKey d r)

/-- A successful read leaves the instance marked as read. -/
theorem read_ok_hasRead {cf cf' : ConfigFile} {fs fs' : Fsys} {t f : Bool}
    (h : cf.read fs t f = Except.ok (cf', fs')) : cf'.hasRead = true := by
  unfold ConfigFile.read at h
  split at h
  · rename_i hc
    obtain ⟨h1, h2⟩ : cf = cf' ∧ fs = fs' := by simpa using h
    subst h1
    simp only [Bool.and_eq_true] at hc
    exact hc.1
  · split at h
    · obtain ⟨h1, h2⟩ : _ ∧ fs = fs' := by simpa using h
      rw [← h1]
    · simp at h
    · split at h
      · simp at h
      · obtain ⟨h1, h2⟩ : _ ∧ fs = fs' := by simpa using h
        rw [← h1]

/-- A read of an already-read instance with force off is the identity and
consults no disk state. -/
theorem read_cached {cf : ConfigFile} (h : cf.hasRead = true) (fs : Fsys) (t : Bool) :
    cf.read fs t false = Except.ok (cf, fs) := by
  simp [ConfigFile.read, h]

/-- The synchronous and asynchronous read variants agree on every input. -/
theorem readSync_eq_read (cf : ConfigFile) (fs : Fsys) (t f : Bool) :
    cf.readSync fs t f = cf.read fs t f := rfl

/-- A completed close handler ends the retry recursion with the result of
the callback. -/
theorem getPassword_done {env : Nat → CloseOutcome} {rc : Nat}
    (h : env rc = CloseOutcome.done) : getPassword env rc = GetResult.completed := by
  rw [getPassword, h]

/-- A non-retryable thrown error is rethrown immediately, with no retry. -/
theorem getPassword_fatal {env : Nat → CloseOutcome} {rc code : Nat}
    (h : env rc = CloseOutcome.thrownFatal code) : getPassword env rc = GetResult.fatal code := by
  rw [getPassword, h]

/-- A retryable error with the retry budget exhausted throws the
passwordRetryError instead of recursing. -/
theorem getPassword_retry_stop {env : Nat → CloseOutcome} {rc : Nat}
    (h : env rc = CloseOutcome.thrownRetryable) (hge : GET_PASSWORD_RETRY_COUNT ≤ rc) :
    getPassword env rc = GetResult.passwordRetryError := by
  rw [getPassword, h]
  exact dif_pos hge

/-- A retryable error below the retry budget recurses with retryCount + 1. -/
theorem getPassword_retry_step {env : Nat → CloseOutcome} {rc : Nat}
    (h : env rc = CloseOutcome.thrownRetryable) (hlt : rc < GET_PASSWORD_RETRY_COUNT) :
    getPassword env rc = getPassword env (rc + 1) := by
  rw [getPassword, h]
  exact dif_neg (Nat.not_le.mpr hlt)

/-- The retry recursion starting at or below the retry budget consults the
environment only at indices up to the budget. -/
theorem getPassword_agree (env env2 : Nat → CloseOutcome)
    (hag : ∀ i, i ≤ GET_PASSWORD_RETRY_COUNT → env i = env2 i) :
    ∀ (fuel rc : Nat), rc ≤ GET_PASSWORD_RETRY_COUNT →
      GET_PASSWORD_RETRY_COUNT + 1 - rc ≤ fuel →
      getPassword env rc = getPassword env2 rc := by
  intro fuel
  induction fuel with
  | zero => intro rc h1 h2; omega
  | succ n ih =>
    intro rc h1 h2
    have henv : env rc = env2 rc := hag rc h1
    cases hval : env2 rc with
    | done => rw [getPassword_done (henv.trans hval), getPassword_done hval]
    | thrownFatal code => rw [getPassword_fatal (henv.trans hval), getPassword_fatal hval]
    | thrownRetryable =>
      by_cases hge : GET_PASSWORD_RETRY_COUNT ≤ rc
      · rw [getPassword_retry_stop (henv.trans hval) hge, getPassword_retry_stop hval hge]
      · have hlt : rc < GET_PASSWORD_RETRY_COUNT := Nat.not_le.mp hge
        rw [getPassword_retry_step (henv.trans hval) hlt, getPassword_retry_step hval hlt]
        exact ih (rc + 1) (by omega) (by omega)

/-- C1: two Document Store instances A and B opened (read) from the same
empty file; A sets top-level key "foo" to va, B sets top-level key "bar" to
vb, and both perform their reconciling writes — in either order.  A
subsequent fresh read of the file yields a document containing both "foo"
with A's value and "bar" with B's value: neither disjoint top-level edit is
lost. -/
theorem c1_disjoint_concurrent_merge (va vb : JsonValue) (aFirst : Bool) :
    (c1Run va vb aFirst).map (fun d => (lookupKey d "foo", lookupKey d "bar")) =
      Except.ok (some va, some vb) := by
  cases aFirst <;> rfl

/-- C2: the reconciling write merges nested objects one level deep.
Starting from the base document (foo mapping to name "bar", color "red",
rating 5; baz mapping to name "qux", color "blue", rating 10),
instance A sets dot-path key "foo.color" to "orange" and writes, and
instance B — opened before A's write — sets "baz.rating" to 0 and writes;
the final on-disk document carries both nested edits: changed nested
objects are shallow-merged onto the on-disk value rather than replaced
wholesale. -/
theorem c2_nested_disjoint_merge :
    c2Run = Except.ok
      [("foo", JsonValue.obj
          [("name", JsonValue.str "bar"), ("color", JsonValue.str "orange"),
           ("rating", JsonValue.num 5)]),
       ("baz", JsonValue.obj
          [("name", JsonValue.str "qux"), ("color", JsonValue.str "blue"),
           ("rating", JsonValue.num 0)])] := rfl

/-- C3: the write-time delta records removals as well as updates — every
top-level key present in baseSnapshot but absent from contents is deleted
from the just-read on-disk state when the delta is applied; and
consequently the ten-instance scenario (each instance sets a distinct key
and writes, then each force re-reads, unsets its own key and writes again)
ends with zero keys on disk. -/
theorem c3_removal_propagation :
    (∀ (base contents disk : ConfigContents) (k : String) (v : JsonValue),
        lookupKey base k = some v → lookupKey contents k = none →
        lookupKey (applyDelta disk (computeDelta base contents)) k = none)
    ∧ c3Run = Except.ok [] := by
  constructor
  · intro base contents disk k v hb hc
    have hmem : k ∈ (computeDelta base contents).removals := by
      have hf : (k, v) ∈ base.filter (fun p => (lookupKey contents p.1).isNone) :=
        List.mem_filter.mpr ⟨lookupKey_mem hb, by simp [hc]⟩
      exact List.mem_map.mpr ⟨(k, v), hf, rfl⟩
    simpa [applyDelta] using foldl_removeKey_mem hmem _
  · rfl

/-- C3 witness: the general removal property evaluated at a concrete
snapshot, contents and on-disk state. -/
theorem c3_removal_propagation_witness :
    lookupKey (applyDelta [("x", JsonValue.num 7)]
        (computeDelta [("a", JsonValue.str "b")] [])) "a" = none :=
  c3_removal_propagation.1 [("a", JsonValue.str "b")] [] [("x", JsonValue.num 7)] "a"
    (JsonValue.str "b") rfl rfl

/-- C4: for every instance and every sequence of in-memory mutations,
baseSnapshot never changes: no call to set or unset (including dot-path
forms, and set with the undefined value) modifies baseSnapshot, hasRead or
the resolved path — set and unset affect only contents. -/
theorem c4_baseSnapshot_untouched_by_set_unset :
    (∀ (cf : ConfigFile) (k : String) (v : Option JsonValue),
        (cf.set k v).baseSnapshot = cf.baseSnapshot ∧
        (cf.set k v).hasRead = cf.hasRead ∧ (cf.set k v).path = cf.path) ∧
    (∀ (cf : ConfigFile) (k : String),
        (cf.unset k).baseSnapshot = cf.baseSnapshot ∧
        (cf.unset k).hasRead = cf.hasRead ∧ (cf.unset k).path = cf.path) ∧
    (∀ (ops : List MutOp) (cf : ConfigFile),
        (ops.foldl applyMutOp cf).baseSnapshot = cf.baseSnapshot) := by
  refine ⟨?_, ?_, ?_⟩
  · intro cf k v
    cases v <;> simp [ConfigFile.set, ConfigFile.unset]
  · intro cf k
    simp [ConfigFile.unset]
  · intro ops
    induction ops with
    | nil => intro cf; rfl
    | cons op rest ih =>
      intro cf
      rw [List.foldl_cons, ih]
      cases op with
      | setOp k v => cases v <;> simp [applyMutOp, ConfigFile.set, ConfigFile.unset]
      | unsetOp k => simp [applyMutOp, ConfigFile.unset]

/-- C5: read is idempotent when cached.  After any successful read, a
second read with force off returns the identical cached state for any disk
state and any throwOnNotFound flag, without touching disk — so two
consecutive reads give equal contents when no external writer intervenes;
and the synchronous readSync agrees with read on every input. -/
theorem c5_idempotent_cached_read (cf cf' : ConfigFile) (fs fs' : Fsys) (t f : Bool)
    (h : cf.read fs t f = Except.ok (cf', fs')) :
    (∀ (fs2 : Fsys) (t2 : Bool),
        cf'.read fs2 t2 false = Except.ok (cf', fs2) ∧
        cf'.readSync fs2 t2 false = Except.ok (cf', fs2)) ∧
    (∀ (fs3 : Fsys) (t3 f3 : Bool), cf.readSync fs3 t3 f3 = cf.read fs3 t3 f3) := by
  have hr : cf'.hasRead = true := read_ok_hasRead h
  refine ⟨fun fs2 t2 => ⟨read_cached hr fs2 t2, ?_⟩, fun fs3 t3 f3 => readSync_eq_read cf fs3 t3 f3⟩
  rw [readSync_eq_read]
  exact read_cached hr fs2 t2

/-- C5 witness: an already-read instance re-reads to itself, sync and
async. -/
theorem c5_idempotent_cached_read_witness :
    ((⟨"p", [], [], true⟩ : ConfigFile).read [] false false =
        Except.ok ((⟨"p", [], [], true⟩ : ConfigFile), []) ∧
     (⟨"p", [], [], true⟩ : ConfigFile).readSync [] false false =
        Except.ok ((⟨"p", [], [], true⟩ : ConfigFile), [])) :=
  (c5_idempotent_cached_read ⟨"p", [], [], true⟩ ⟨"p", [], [], true⟩ [] [] false false rfl).1
    [] false

/-- C6: reading a non-existent file with throwOnNotFound false succeeds,
sets both contents and baseSnapshot to the empty document and does not
create the file on disk (the filesystem is returned unchanged); reading it
with throwOnNotFound true fails with the FileNotFound error; and any other
I/O or parse failure propagates as-is, sync and async alike. -/
theorem c6_missing_file_default (cf : ConfigFile) (fs : Fsys) (f : Bool)
    (h1 : cf.hasRead = false) (h2 : lookupKey fs cf.path = none) :
    (cf.read fs false f =
        Except.ok ({ cf with contents := [], baseSnapshot := [], hasRead := true }, fs) ∧
     cf.readSync fs false f =
        Except.ok ({ cf with contents := [], baseSnapshot := [], hasRead := true }, fs)) ∧
    (cf.read fs true f = Except.error SfError.fileNotFound ∧
     cf.readSync fs true f = Except.error SfError.fileNotFound) ∧
    (∀ (fs2 : Fsys) (t2 : Bool) (code : Nat),
        lookupKey fs2 cf.path = some (FileState.ioErr code) →
        cf.read fs2 t2 f = Except.error (SfError.ioError code) ∧
        cf.readSync fs2 t2 f = Except.error (SfError.ioError code)) := by
  refine ⟨⟨?_, ?_⟩, ⟨?_, ?_⟩, ?_⟩
  · simp [ConfigFile.read, h1, h2]
  · simp [ConfigFile.readSync, h1, h2]
  · simp [ConfigFile.read, h1, h2]
  · simp [ConfigFile.readSync, h1, h2]
  · intro fs2 t2 code h3
    constructor
    · simp [ConfigFile.read, h1, h3]
    · simp [ConfigFile.readSync, h1, h3]

/-- C6 witness: a fresh instance against an empty filesystem. -/
theorem c6_missing_file_default_witness :
    (newConfigFile "p").read [] false false =
      Except.ok ({ newConfigFile "p" with
        contents := [], baseSnapshot := [], hasRead := true }, []) :=
  ((c6_missing_file_default (newConfigFile "p") [] false rfl rfl).1).1

/-- C7: the Path Resolver rules apply in priority order with isGlobal
dominating — whenever isGlobal is true (and the filename is non-empty) the
resolved path is the one under the global home-state directory, and the
result does not depend on isState or customPath at all; the resolver is a
pure function and fails exactly when the filename is empty. -/
theorem c7_global_dominates (o : PathOptions) :
    (o.isGlobal = true →
       (o.filename ≠ "" →
          resolvePath o = Except.ok (joinPath [o.homeDir, stateFolder, o.filename])) ∧
       (∀ (b : Bool) (c : Option String),
          resolvePath { o with isState := b, customPath := c } = resolvePath o)) ∧
    ((∃ e, resolvePath o = Except.error e) ↔ o.filename = "") := by
  constructor
  · intro hg
    constructor
    · intro hf
      simp [resolvePath, hf, hg]
    · intro b c
      simp [resolvePath, hg]
  · constructor
    · rintro ⟨e, he⟩
      by_cases hf : o.filename = ""
      · exact hf
      · exfalso
        rcases hc : o.customPath with _ | cp <;> cases hg : o.isGlobal <;>
          cases hs : o.isState <;> simp [resolvePath, hf, hc, hg, hs] at he
    · intro hf
      exact ⟨SfError.missingFilename, by simp [resolvePath, hf]⟩

/-- C7 witness: a concrete global instantiation, with isState false and a
custom path supplied, still resolves under the home-state directory. -/
theorem c7_global_dominates_witness :
    resolvePath ⟨"test", true, false, some "my/path", "root", "home"⟩ =
      Except.ok (joinPath ["home", stateFolder, "test"]) :=
  ((c7_global_dominates ⟨"test", true, false, some "my/path", "root", "home"⟩).1 rfl).1
    (by decide)

/-- C8: unlink (and unlinkSync) against a path whose file does not exist
fails with the TargetFileNotFound error; when the file exists both variants
delete exactly the entry at the instance's resolved path. -/
theorem c8_unlink_without_exist (cf : ConfigFile) (fs : Fsys) :
    (cf.existsFile fs = false →
        cf.unlink fs = Except.error SfError.targetFileNotFound ∧
        cf.unlinkSync fs = Except.error SfError.targetFileNotFound) ∧
    (cf.existsFile fs = true →
        cf.unlink fs = Except.ok (removeKey fs cf.path) ∧
        cf.unlinkSync fs = Except.ok (removeKey fs cf.path)) := by
  have hsync : cf.existsFileSync fs = cf.existsFile fs := rfl
  constructor <;> intro h <;>
    simp [ConfigFile.unlink, ConfigFile.unlinkSync, hsync, h]

/-- C8 witness: a fresh instance against an empty filesystem. -/
theorem c8_unlink_without_exist_witness :
    (newConfigFile "p").unlink [] = Except.error SfError.targetFileNotFound :=
  (((c8_unlink_without_exist (newConfigFile "p") []).1) rfl).1

/-- C9: the existence-check facades never raise — access returns true
exactly when the raw accessibility check on the instance's resolved path
succeeds and false whenever it fails, for any reason; accessSync agrees
with access, and exists / existsSync return the very same booleans. -/
theorem c9_access_never_raises (cf : ConfigFile) (fs : Fsys) :
    (cf.accessSync fs = cf.access fs ∧
     cf.existsFile fs = cf.access fs ∧
     cf.existsFileSync fs = cf.accessSync fs) ∧
    (cf.access fs = true ↔ rawAccess fs cf.path = Except.ok ()) ∧
    (∀ (code : Nat), rawAccess fs cf.path = Except.error code → cf.access fs = false) := by
  refine ⟨⟨rfl, rfl, rfl⟩, ?_, ?_⟩
  · cases h : rawAccess fs cf.path with
    | error code => simp [ConfigFile.access, h]
    | ok u => cases u; simp [ConfigFile.access, h]
  · intro code h
    simp [ConfigFile.access, h]

/-- C9 witness: on the empty filesystem the accessibility check fails with
ENOENT and access resolves to false rather than raising. -/
theorem c9_access_never_raises_witness : (newConfigFile "p").access [] = false :=
  ((c9_access_never_raises (newConfigFile "p") []).2.2) 2 rfl

/-- C10: KeychainAccess.getPassword retries only on errors marked
retryable, and at most GET_PASSWORD_RETRY_COUNT = 3 times.  A completed
close handler ends the recursion; a non-retryable error is rethrown
immediately without retry; a retryable failure below the bound recurses
with retryCount + 1; once retryCount reaches the bound, passwordRetryError
is thrown instead of recursing.  Consequently the recursion always
terminates: its result depends on the failure environment only at
retryCount values up to the bound, and the everywhere-retryable worst case
ends in passwordRetryError. -/
theorem c10_getPassword_retry_bounded :
    GET_PASSWORD_RETRY_COUNT = 3 ∧
    (∀ (env : Nat → CloseOutcome) (rc : Nat),
        env rc = CloseOutcome.done → getPassword env rc = GetResult.completed) ∧
    (∀ (env : Nat → CloseOutcome) (rc code : Nat),
        env rc = CloseOutcome.thrownFatal code → getPassword env rc = GetResult.fatal code) ∧
    (∀ (env : Nat → CloseOutcome) (rc : Nat),
        env rc = CloseOutcome.thrownRetryable → GET_PASSWORD_RETRY_COUNT ≤ rc →
        getPassword env rc = GetResult.passwordRetryError) ∧
    (∀ (env : Nat → CloseOutcome) (rc : Nat),
        env rc = CloseOutcome.thrownRetryable → rc < GET_PASSWORD_RETRY_COUNT →
        getPassword env rc = getPassword env (rc + 1)) ∧
    (∀ (env env2 : Nat → CloseOutcome),
        (∀ i, i ≤ GET_PASSWORD_RETRY_COUNT → env i = env2 i) →
        getPassword env 0 = getPassword env2 0) ∧
    (∀ (env : Nat → CloseOutcome),
        (∀ i, env i = CloseOutcome.thrownRetryable) →
        getPassword env 0 = GetResult.passwordRetryError) := by
  refine ⟨rfl, fun env rc h => getPassword_done h, fun env rc code h => getPassword_fatal h,
          fun env rc h hge => getPassword_retry_stop h hge,
          fun env rc h hlt => getPassword_retry_step h hlt, ?_, ?_⟩
  · intro env env2 hag
    exact getPassword_agree env env2 hag (GET_PASSWORD_RETRY_COUNT + 1) 0 (Nat.zero_le _)
      (by omega)
  · intro env hall
    rw [getPassword_retry_step (hall 0) (by decide),
        getPassword_retry_step (hall 1) (by decide),
        getPassword_retry_step (hall 2) (by decide)]
    exact getPassword_retry_stop (hall 3) (by decide)

/-- C10 witness: an environment in which every invocation fails retryably
reaches the retry bound and ends in passwordRetryError. -/
theorem c10_getPassword_retry_bounded_witness :
    getPassword (fun _ => CloseOutcome.thrownRetryable) 0 = GetResult.passwordRetryError :=
  c10_getPassword_retry_bounded.2.2.2.2.2.2 (fun _ => CloseOutcome.thrownRetryable)
    (fun _ => rfl)
